import Mathlib

/-!
Shallow embedding of the react-view-import core: the createLoadMap trigger
resolver and the UILazyInView slot controller (the state it owns, the
InView onChange handler that makes every load decision, and the render
output), together with an event model of the embedding environment
(intersection-observer callbacks as constrained by triggerOnce, prop
updates delivered by re-renders, and asynchronous import completions).
-/

namespace ReactViewImport

/-- Modelled from the spec: the LazyLoadState enumeration is imported by the
source from src/components/types.ts, a file of this repository that is not
among the provided sources. Spec section 3 and the README fix its three
values: DEFAULT, LOADED_ON_MOUNT and LAZY_ON_CONDITION. -/
inductive LazyLoadState where
  | DEFAULT
  | LOADED_ON_MOUNT
  | LAZY_ON_CONDITION
deriving DecidableEq

/-- Truthiness of an optional boolean prop: the double-bang coercion that
createLoadMap applies to each field; an absent (undefined) prop is falsy. -/
def bangBang (b : Option Bool) : Bool := b.getD false

/-- Embedding of createLoadMap (src/unnamed/part_000): an object literal
keyed by the three LazyLoadState values, embedded as a total function on
the enumeration. Field order follows the destructuring in the source:
loadOnMount, loadByDefault, loadOnCondition. -/
def createLoadMap (loadOnMount loadByDefault loadOnCondition : Option Bool) :
    LazyLoadState → Bool
  | .LOADED_ON_MOUNT => bangBang loadOnMount
  | .DEFAULT => bangBang loadByDefault
  | .LAZY_ON_CONDITION => bangBang loadOnCondition

/-- Per-instance configuration of a UILazyInView slot that is fixed for the
lifetime of the instance: the configured loading strategy (the loadState
prop, whose source default when omitted is LazyLoadState.DEFAULT), the
exportName key, the module mapping that the importer promise resolves with
(the importer is a fixed retrieval function for the instance), and whether
an onInView callback prop was supplied. -/
structure SlotConfig (α : Type) where
  loadState : LazyLoadState
  exportName : String
  mod : List (String × α)
  hasOnInView : Bool

/-- Mutable per-instance state of a UILazyInView slot: the Comp useState
cell, the current values of the loadOnMount and loadOnCondition props (an
absent prop is none), the number of importer promises still in flight, and
instrumentation counting how often the importer and the onInView callback
have been invoked. -/
structure SlotState (α : Type) where
  comp : Option α
  loadOnMount : Option Bool
  loadOnCondition : Option Bool
  pending : Nat
  importerCalls : Nat
  onInViewCalls : Nat

/-- Initial state of a freshly created slot instance: Comp is null, the
flag props hold their creation-time values, nothing is in flight and
nothing has been invoked. -/
def initSlot (m c : Option Bool) : SlotState α :=
  { comp := none, loadOnMount := m, loadOnCondition := c,
    pending := 0, importerCalls := 0, onInViewCalls := 0 }

/-- External stimuli a slot instance can receive: an intersection-observer
callback carrying the current inView value (the only trigger that runs the
onChange handler), a re-render that changes the loadOnCondition prop, a
re-render that changes the loadOnMount prop, and the completion of one
in-flight importer promise (fulfilment with the configured module mapping,
or rejection). -/
inductive Event where
  | obsChange (inView : Bool)
  | setCondition (b : Bool)
  | setLoadOnMount (b : Bool)
  | resolveImport
  | rejectImport
deriving DecidableEq

/-- True for intersection-observer callback events. -/
def isObs : Event → Bool
  | .obsChange _ => true
  | _ => false

/-- True for the observer callback that reports the element in view. -/
def isEnter : Event → Bool
  | .obsChange b => b
  | _ => false

/-- True for a fulfilled import completion. -/
def isResolve : Event → Bool
  | .resolveImport => true
  | _ => false

/-- One step of the slot controller. The obsChange case is the onChange
handler of the source verbatim: build the load map from loadByDefault =
inView and not Comp together with the current flag props, index it with the
configured loadState, invoke the importer when the entry is true, then
invoke onInView when inView holds and the callback was supplied. Prop
updates only store the new value (a re-render runs no handler). An import
completion is only deliverable while a call is in flight; fulfilment sets
Comp to the exportName entry of the resolved module exactly as
setComp applied to the lookup, and rejection is not handled by the core,
leaving all slot state unchanged. -/
def stepSlot (cfg : SlotConfig α) (st : SlotState α) : Event → SlotState α
  | .obsChange inView =>
    let loadMap := createLoadMap st.loadOnMount (some (inView && st.comp.isNone))
      st.loadOnCondition
    let shouldLoad := loadMap cfg.loadState
    let st1 := if shouldLoad then
        { st with importerCalls := st.importerCalls + 1, pending := st.pending + 1 }
      else st
    if inView && cfg.hasOnInView then
      { st1 with onInViewCalls := st1.onInViewCalls + 1 }
    else st1
  | .setCondition b => { st with loadOnCondition := some b }
  | .setLoadOnMount b => { st with loadOnMount := some b }
  | .resolveImport =>
    if 0 < st.pending then
      { st with pending := st.pending - 1, comp := List.lookup cfg.exportName cfg.mod }
    else st
  | .rejectImport =>
    if 0 < st.pending then { st with pending := st.pending - 1 } else st

/-- Run a slot from a given state through a list of events. -/
def runFrom (cfg : SlotConfig α) (st : SlotState α) : List Event → SlotState α
  | [] => st
  | e :: t => runFrom cfg (stepSlot cfg st e) t

/-- Run a freshly created slot instance (with creation-time flag props m
and c) through a list of events. -/
def runSlot (cfg : SlotConfig α) (m c : Option Bool) (t : List Event) : SlotState α :=
  runFrom cfg (initSlot m c) t

/-- Render output of the slot, mirroring the JSX body: the placeholder is
shown exactly while Comp is null, and the component rendered is Comp. -/
def renderOutput (st : SlotState α) (placeholder : Option π) : Option π × Option α :=
  (if st.comp.isNone then placeholder else none, st.comp)

/-- Contract of the visibility collaborator under triggerOnce: once an
observer callback reports in view, the element is unobserved, so no further
observer callback of any kind is delivered. -/
def obsValid : List Event → Bool
  | [] => true
  | e :: t => if isEnter e then t.all (fun x => !(isObs x)) else obsValid t

/-- Number of observer callbacks in a trace that report in view. -/
def countEnter : List Event → Nat
  | [] => 0
  | e :: t => (if isEnter e then 1 else 0) + countEnter t

/-- Number of observer callbacks that arrive while the loadOnMount prop is
truthy, threading prop updates through the trace. -/
def mountFireCount : Option Bool → List Event → Nat
  | _, [] => 0
  | m, Event.obsChange _ :: t => (if bangBang m then 1 else 0) + mountFireCount m t
  | _, Event.setLoadOnMount b :: t => mountFireCount (some b) t
  | m, _ :: t => mountFireCount m t

/-- Number of observer callbacks that arrive while the loadOnCondition prop
is truthy, threading prop updates through the trace. -/
def condFireCount : Option Bool → List Event → Nat
  | _, [] => 0
  | c, Event.obsChange _ :: t => (if bangBang c then 1 else 0) + condFireCount c t
  | _, Event.setCondition b :: t => condFireCount (some b) t
  | c, _ :: t => condFireCount c t

/-- Invariant tying the Comp cell to the configured module: Comp is either
still null or holds exactly the exportName lookup of the module the
importer resolves with. -/
def CompInv (cfg : SlotConfig α) (st : SlotState α) : Prop :=
  st.comp = none ∨ st.comp = List.lookup cfg.exportName cfg.mod

/-- Concrete configuration over Nat artifacts used to evaluate the model on
closed inputs: a module with a single default export 0. -/
def natCfg (s : LazyLoadState) : SlotConfig Nat :=
  { loadState := s, exportName := "default", mod := [("default", 0)], hasOnInView := false }

/-- Like natCfg but with an onInView callback supplied. -/
def natCfgIn (s : LazyLoadState) : SlotConfig Nat :=
  { loadState := s, exportName := "default", mod := [("default", 0)], hasOnInView := true }

theorem stepSlot_obsChange_importerCalls (cfg : SlotConfig α) (st : SlotState α) (b : Bool) :
    (stepSlot cfg st (Event.obsChange b)).importerCalls
      = st.importerCalls +
        (if createLoadMap st.loadOnMount (some (b && st.comp.isNone)) st.loadOnCondition
            cfg.loadState
         then 1 else 0) := by
  simp only [stepSlot]
  split_ifs <;> simp

theorem stepSlot_obsChange_onInViewCalls (cfg : SlotConfig α) (st : SlotState α) (b : Bool) :
    (stepSlot cfg st (Event.obsChange b)).onInViewCalls
      = st.onInViewCalls + (if b && cfg.hasOnInView then 1 else 0) := by
  simp only [stepSlot]
  split_ifs <;> simp

theorem stepSlot_obsChange_comp (cfg : SlotConfig α) (st : SlotState α) (b : Bool) :
    (stepSlot cfg st (Event.obsChange b)).comp = st.comp := by
  simp only [stepSlot]
  split_ifs <;> rfl

theorem stepSlot_obsChange_loadOnMount (cfg : SlotConfig α) (st : SlotState α) (b : Bool) :
    (stepSlot cfg st (Event.obsChange b)).loadOnMount = st.loadOnMount := by
  simp only [stepSlot]
  split_ifs <;> rfl

theorem stepSlot_obsChange_loadOnCondition (cfg : SlotConfig α) (st : SlotState α) (b : Bool) :
    (stepSlot cfg st (Event.obsChange b)).loadOnCondition = st.loadOnCondition := by
  simp only [stepSlot]
  split_ifs <;> rfl

theorem stepSlot_resolve_comp (cfg : SlotConfig α) (st : SlotState α) :
    (stepSlot cfg st Event.resolveImport).comp
      = if 0 < st.pending then List.lookup cfg.exportName cfg.mod else st.comp := by
  simp only [stepSlot]
  split_ifs <;> rfl

theorem stepSlot_nonObs_importerCalls (cfg : SlotConfig α) (st : SlotState α) (e : Event)
    (h : isObs e = false) : (stepSlot cfg st e).importerCalls = st.importerCalls := by
  cases e with
  | obsChange b => simp [isObs] at h
  | setCondition b => rfl
  | setLoadOnMount b => rfl
  | resolveImport =>
    simp only [stepSlot]
    split_ifs <;> rfl
  | rejectImport =>
    simp only [stepSlot]
    split_ifs <;> rfl

theorem stepSlot_nonObs_onInViewCalls (cfg : SlotConfig α) (st : SlotState α) (e : Event)
    (h : isObs e = false) : (stepSlot cfg st e).onInViewCalls = st.onInViewCalls := by
  cases e with
  | obsChange b => simp [isObs] at h
  | setCondition b => rfl
  | setLoadOnMount b => rfl
  | resolveImport =>
    simp only [stepSlot]
    split_ifs <;> rfl
  | rejectImport =>
    simp only [stepSlot]
    split_ifs <;> rfl

theorem stepSlot_nonResolve_comp (cfg : SlotConfig α) (st : SlotState α) (e : Event)
    (h : isResolve e = false) : (stepSlot cfg st e).comp = st.comp := by
  cases e with
  | obsChange b => exact stepSlot_obsChange_comp cfg st b
  | setCondition b => rfl
  | setLoadOnMount b => rfl
  | resolveImport => simp [isResolve] at h
  | rejectImport =>
    simp only [stepSlot]
    split_ifs <;> rfl

theorem stepSlot_reject_importerCalls (cfg : SlotConfig α) (st : SlotState α) :
    (stepSlot cfg st Event.rejectImport).importerCalls = st.importerCalls := by
  simp only [stepSlot]
  split_ifs <;> rfl

theorem stepSlot_reject_comp (cfg : SlotConfig α) (st : SlotState α) :
    (stepSlot cfg st Event.rejectImport).comp = st.comp := by
  simp only [stepSlot]
  split_ifs <;> rfl

theorem runFrom_append (cfg : SlotConfig α) (st : SlotState α) (t u : List Event) :
    runFrom cfg st (t ++ u) = runFrom cfg (runFrom cfg st t) u := by
  induction t generalizing st with
  | nil => rfl
  | cons e t ih => simp [runFrom, ih]

theorem run_noObs_importerCalls (cfg : SlotConfig α) :
    ∀ (t : List Event) (st : SlotState α), t.all (fun x => !(isObs x)) = true →
      (runFrom cfg st t).importerCalls = st.importerCalls := by
  intro t
  induction t with
  | nil => intro st _; rfl
  | cons e t ih =>
    intro st h
    simp only [List.all_cons, Bool.and_eq_true, Bool.not_eq_true'] at h
    rw [runFrom, ih _ (by simpa using h.2)]
    exact stepSlot_nonObs_importerCalls cfg st e h.1

theorem run_noResolve_comp (cfg : SlotConfig α) :
    ∀ (t : List Event) (st : SlotState α), t.all (fun x => !(isResolve x)) = true →
      (runFrom cfg st t).comp = st.comp := by
  intro t
  induction t with
  | nil => intro st _; rfl
  | cons e t ih =>
    intro st h
    simp only [List.all_cons, Bool.and_eq_true, Bool.not_eq_true'] at h
    rw [runFrom, ih _ (by simpa using h.2)]
    exact stepSlot_nonResolve_comp cfg st e h.1

theorem isEnter_false_of_nonObs (e : Event) (h : isObs e = false) : isEnter e = false := by
  cases e <;> simp_all [isObs, isEnter]

theorem countEnter_eq_zero_of_noObs (t : List Event)
    (h : t.all (fun x => !(isObs x)) = true) : countEnter t = 0 := by
  induction t with
  | nil => rfl
  | cons e t ih =>
    simp only [List.all_cons, Bool.and_eq_true, Bool.not_eq_true'] at h
    simp [countEnter, isEnter_false_of_nonObs e h.1, ih (by simpa using h.2)]

theorem countEnter_le_one_of_obsValid (t : List Event) (h : obsValid t = true) :
    countEnter t ≤ 1 := by
  induction t with
  | nil => simp [countEnter]
  | cons e t ih =>
    by_cases he : isEnter e = true
    · have hall : t.all (fun x => !(isObs x)) = true := by simpa [obsValid, he] using h
      simp [countEnter, he, countEnter_eq_zero_of_noObs t hall]
    · have he2 : isEnter e = false := by simpa using he
      have h2 : obsValid t = true := by simpa [obsValid, he2] using h
      have := ih h2
      simp [countEnter, he2]
      omega

theorem stepSlot_default_le (cfg : SlotConfig α) (h : cfg.loadState = .DEFAULT)
    (st : SlotState α) (e : Event) :
    (stepSlot cfg st e).importerCalls
      ≤ st.importerCalls + (if isEnter e then 1 else 0) := by
  cases e with
  | obsChange b =>
    rw [stepSlot_obsChange_importerCalls, h]
    cases b <;> simp [createLoadMap, bangBang, isEnter] <;> split_ifs <;> omega
  | setCondition b => simp [stepSlot, isEnter]
  | setLoadOnMount b => simp [stepSlot, isEnter]
  | resolveImport =>
    rw [stepSlot_nonObs_importerCalls cfg st Event.resolveImport rfl]
    simp [isEnter]
  | rejectImport =>
    rw [stepSlot_nonObs_importerCalls cfg st Event.rejectImport rfl]
    simp [isEnter]

theorem run_default_le (cfg : SlotConfig α) (h : cfg.loadState = .DEFAULT) :
    ∀ (t : List Event) (st : SlotState α),
      (runFrom cfg st t).importerCalls ≤ st.importerCalls + countEnter t := by
  intro t
  induction t with
  | nil => intro st; simp [runFrom, countEnter]
  | cons e t ih =>
    intro st
    rw [runFrom]
    have h1 := stepSlot_default_le cfg h st e
    have h2 := ih (stepSlot cfg st e)
    have h3 : countEnter (e :: t) = (if isEnter e then 1 else 0) + countEnter t := rfl
    by_cases hE : isEnter e = true <;> simp [hE] at h1 h3 <;> omega

theorem stepSlot_resolve_loadOnMount (cfg : SlotConfig α) (st : SlotState α) :
    (stepSlot cfg st Event.resolveImport).loadOnMount = st.loadOnMount := by
  simp only [stepSlot]
  split_ifs <;> rfl

theorem stepSlot_resolve_loadOnCondition (cfg : SlotConfig α) (st : SlotState α) :
    (stepSlot cfg st Event.resolveImport).loadOnCondition = st.loadOnCondition := by
  simp only [stepSlot]
  split_ifs <;> rfl

theorem stepSlot_reject_loadOnMount (cfg : SlotConfig α) (st : SlotState α) :
    (stepSlot cfg st Event.rejectImport).loadOnMount = st.loadOnMount := by
  simp only [stepSlot]
  split_ifs <;> rfl

theorem stepSlot_reject_loadOnCondition (cfg : SlotConfig α) (st : SlotState α) :
    (stepSlot cfg st Event.rejectImport).loadOnCondition = st.loadOnCondition := by
  simp only [stepSlot]
  split_ifs <;> rfl

theorem stepSlot_mount_importerCalls (cfg : SlotConfig α)
    (h : cfg.loadState = .LOADED_ON_MOUNT) (st : SlotState α) (b : Bool) :
    (stepSlot cfg st (Event.obsChange b)).importerCalls
      = st.importerCalls + (if bangBang st.loadOnMount then 1 else 0) := by
  rw [stepSlot_obsChange_importerCalls, h]
  rfl

theorem run_mount_importerCalls (cfg : SlotConfig α)
    (h : cfg.loadState = .LOADED_ON_MOUNT) :
    ∀ (t : List Event) (st : SlotState α),
      (runFrom cfg st t).importerCalls
        = st.importerCalls + mountFireCount st.loadOnMount t := by
  intro t
  induction t with
  | nil => intro st; simp [runFrom, mountFireCount]
  | cons e t ih =>
    intro st
    rw [runFrom, ih]
    cases e with
    | obsChange b =>
      rw [stepSlot_mount_importerCalls cfg h, stepSlot_obsChange_loadOnMount]
      have hm : mountFireCount st.loadOnMount (Event.obsChange b :: t)
          = (if bangBang st.loadOnMount then 1 else 0)
            + mountFireCount st.loadOnMount t := rfl
      omega
    | setCondition b => rfl
    | setLoadOnMount b => rfl
    | resolveImport =>
      rw [stepSlot_nonObs_importerCalls cfg st Event.resolveImport rfl,
        stepSlot_resolve_loadOnMount]
      rfl
    | rejectImport =>
      rw [stepSlot_nonObs_importerCalls cfg st Event.rejectImport rfl,
        stepSlot_reject_loadOnMount]
      rfl

theorem stepSlot_cond_importerCalls (cfg : SlotConfig α)
    (h : cfg.loadState = .LAZY_ON_CONDITION) (st : SlotState α) (b : Bool) :
    (stepSlot cfg st (Event.obsChange b)).importerCalls
      = st.importerCalls + (if bangBang st.loadOnCondition then 1 else 0) := by
  rw [stepSlot_obsChange_importerCalls, h]
  rfl

theorem run_cond_importerCalls (cfg : SlotConfig α)
    (h : cfg.loadState = .LAZY_ON_CONDITION) :
    ∀ (t : List Event) (st : SlotState α),
      (runFrom cfg st t).importerCalls
        = st.importerCalls + condFireCount st.loadOnCondition t := by
  intro t
  induction t with
  | nil => intro st; simp [runFrom, condFireCount]
  | cons e t ih =>
    intro st
    rw [runFrom, ih]
    cases e with
    | obsChange b =>
      rw [stepSlot_cond_importerCalls cfg h, stepSlot_obsChange_loadOnCondition]
      have hm : condFireCount st.loadOnCondition (Event.obsChange b :: t)
          = (if bangBang st.loadOnCondition then 1 else 0)
            + condFireCount st.loadOnCondition t := rfl
      omega
    | setCondition b => rfl
    | setLoadOnMount b => rfl
    | resolveImport =>
      rw [stepSlot_nonObs_importerCalls cfg st Event.resolveImport rfl,
        stepSlot_resolve_loadOnCondition]
      rfl
    | rejectImport =>
      rw [stepSlot_nonObs_importerCalls cfg st Event.rejectImport rfl,
        stepSlot_reject_loadOnCondition]
      rfl

theorem run_onInViewCalls (cfg : SlotConfig α) (h : cfg.hasOnInView = true) :
    ∀ (t : List Event) (st : SlotState α),
      (runFrom cfg st t).onInViewCalls = st.onInViewCalls + countEnter t := by
  intro t
  induction t with
  | nil => intro st; simp [runFrom, countEnter]
  | cons e t ih =>
    intro st
    rw [runFrom, ih]
    cases e with
    | obsChange b =>
      rw [stepSlot_obsChange_onInViewCalls, h]
      have hc : countEnter (Event.obsChange b :: t)
          = (if b then 1 else 0) + countEnter t := by
        simp [countEnter, isEnter]
      rw [hc]
      cases b <;> simp <;> omega
    | setCondition b => simp [stepSlot, countEnter, isEnter]
    | setLoadOnMount b => simp [stepSlot, countEnter, isEnter]
    | resolveImport =>
      rw [stepSlot_nonObs_onInViewCalls cfg st Event.resolveImport rfl]
      simp [countEnter, isEnter]
    | rejectImport =>
      rw [stepSlot_nonObs_onInViewCalls cfg st Event.rejectImport rfl]
      simp [countEnter, isEnter]

theorem compInv_step (cfg : SlotConfig α) (st : SlotState α) (e : Event)
    (hInv : CompInv cfg st) : CompInv cfg (stepSlot cfg st e) := by
  cases e with
  | obsChange b =>
    unfold CompInv at hInv ⊢
    rw [stepSlot_obsChange_comp]
    exact hInv
  | setCondition b => exact hInv
  | setLoadOnMount b => exact hInv
  | resolveImport =>
    unfold CompInv at hInv ⊢
    rw [stepSlot_resolve_comp]
    split_ifs
    · exact Or.inr rfl
    · exact hInv
  | rejectImport =>
    unfold CompInv at hInv ⊢
    rw [stepSlot_reject_comp]
    exact hInv

theorem compInv_run (cfg : SlotConfig α) :
    ∀ (t : List Event) (st : SlotState α), CompInv cfg st →
      CompInv cfg (runFrom cfg st t) := by
  intro t
  induction t with
  | nil => intro st hInv; exact hInv
  | cons e t ih =>
    intro st hInv
    rw [runFrom]
    exact ih _ (compInv_step cfg st e hInv)

theorem stepSlot_loaded (cfg : SlotConfig α) (st : SlotState α) (e : Event)
    (hInv : CompInv cfg st) (hL : st.comp.isSome = true) :
    (stepSlot cfg st e).comp.isSome = true
      ∧ (cfg.loadState = .DEFAULT →
          (stepSlot cfg st e).importerCalls = st.importerCalls) := by
  obtain ⟨a, ha⟩ := Option.isSome_iff_exists.mp hL
  cases e with
  | obsChange b =>
    constructor
    · rw [stepSlot_obsChange_comp]; exact hL
    · intro h
      rw [stepSlot_obsChange_importerCalls, h, ha]
      simp [createLoadMap, bangBang]
  | setCondition b => exact ⟨hL, fun _ => rfl⟩
  | setLoadOnMount b => exact ⟨hL, fun _ => rfl⟩
  | resolveImport =>
    constructor
    · rw [stepSlot_resolve_comp]
      split_ifs with hp
      · rcases hInv with h0 | hEq
        · rw [h0] at ha; cases ha
        · rw [← hEq]; exact hL
      · exact hL
    · intro _
      exact stepSlot_nonObs_importerCalls cfg st Event.resolveImport rfl
  | rejectImport =>
    constructor
    · rw [stepSlot_reject_comp]; exact hL
    · intro _
      exact stepSlot_reject_importerCalls cfg st

theorem run_loaded (cfg : SlotConfig α) :
    ∀ (t : List Event) (st : SlotState α), CompInv cfg st → st.comp.isSome = true →
      (runFrom cfg st t).comp.isSome = true
        ∧ (cfg.loadState = .DEFAULT →
            (runFrom cfg st t).importerCalls = st.importerCalls) := by
  intro t
  induction t with
  | nil => intro st _ hL; exact ⟨hL, fun _ => rfl⟩
  | cons e t ih =>
    intro st hInv hL
    have hs := stepSlot_loaded cfg st e hInv hL
    have hrest := ih (stepSlot cfg st e) (compInv_step cfg st e hInv) hs.1
    rw [runFrom]
    exact ⟨hrest.1, fun h => by rw [hrest.2 h, hs.2 h]⟩

/-- Claim C1 counterexample: with strategy LOADED_ON_MOUNT and loadOnMount
set, the triggerOnce-valid observer sequence of an initial not-in-view
callback followed by the enter-view callback invokes the importer twice:
the LOADED_ON_MOUNT entry of the load map never consults Comp, so the
claimed at-most-once property fails for this configured strategy. -/
theorem C1_counterexample :
    obsValid [Event.obsChange false, Event.obsChange true] = true
      ∧ (runSlot (natCfg .LOADED_ON_MOUNT) (some true) none
          [Event.obsChange false, Event.obsChange true]).importerCalls = 2 :=
  ⟨rfl, rfl⟩

/-- Claim C1 (amended): over any triggerOnce-valid sequence of trigger
evaluations, the importer is invoked at most once for the Default strategy;
for the LOADED_ON_MOUNT strategy the importer is instead invoked at every
delivered observer callback while loadOnMount is truthy, which can exceed
one invocation. -/
theorem C1_theorem :
    (∀ (α : Type) (cfg : SlotConfig α) (m c : Option Bool) (t : List Event),
        cfg.loadState = .DEFAULT → obsValid t = true →
        (runSlot cfg m c t).importerCalls ≤ 1)
      ∧ (∀ (α : Type) (cfg : SlotConfig α) (m c : Option Bool) (t : List Event),
          cfg.loadState = .LOADED_ON_MOUNT →
          (runSlot cfg m c t).importerCalls = mountFireCount m t) := by
  constructor
  · intro α cfg m c t h hv
    have h1 := run_default_le cfg h t (initSlot m c)
    have h2 := countEnter_le_one_of_obsValid t hv
    have h3 : (initSlot m c : SlotState α).importerCalls = 0 := rfl
    unfold runSlot
    omega
  · intro α cfg m c t h
    unfold runSlot
    rw [run_mount_importerCalls cfg h t (initSlot m c)]
    show 0 + mountFireCount m t = mountFireCount m t
    omega

/-- Witness for the amended claim C1 at concrete inputs. -/
theorem C1_witness :
    (runSlot (natCfg .DEFAULT) (some true) (some true)
        [Event.obsChange false, Event.obsChange true]).importerCalls ≤ 1
      ∧ (runSlot (natCfg .LOADED_ON_MOUNT) (some true) none
          [Event.obsChange false, Event.obsChange true]).importerCalls
        = mountFireCount (some true) [Event.obsChange false, Event.obsChange true] :=
  ⟨C1_theorem.1 Nat (natCfg .DEFAULT) (some true) (some true)
      [Event.obsChange false, Event.obsChange true] rfl (by decide),
   C1_theorem.2 Nat (natCfg .LOADED_ON_MOUNT) (some true) none
      [Event.obsChange false, Event.obsChange true] rfl⟩

/-- Claim C2 counterexample: a LOADED_ON_MOUNT slot to which no observer
callback is ever delivered performs zero retrievals, not the claimed one
retrieval at creation time: the source has no creation-time evaluation and
only loads from inside the onChange handler. -/
theorem C2_counterexample :
    (runSlot (natCfg .LOADED_ON_MOUNT) (some true) none []).importerCalls = 0
      ∧ ¬ (runSlot (natCfg .LOADED_ON_MOUNT) (some true) none []).importerCalls = 1 :=
  ⟨rfl, by decide⟩

/-- Claim C2 (amended): with strategy LOADED_ON_MOUNT and loadOnMount true,
the retrieval is attempted at the first delivered observer callback
regardless of its inView value (the environment delivers such an initial
callback right after mount, which is what makes the load happen at mount
in practice); if no observer callback is ever delivered, no retrieval
occurs. -/
theorem C2_theorem :
    ∀ (α : Type) (cfg : SlotConfig α) (c : Option Bool) (b : Bool),
      cfg.loadState = .LOADED_ON_MOUNT →
      (runSlot cfg (some true) c [Event.obsChange b]).importerCalls = 1
        ∧ (runSlot cfg (some true) c []).importerCalls = 0 := by
  intro α cfg c b h
  constructor
  · unfold runSlot
    rw [run_mount_importerCalls cfg h [Event.obsChange b] (initSlot (some true) c)]
    show 0 + mountFireCount (some true) [Event.obsChange b] = 1
    simp [mountFireCount, bangBang]
  · rfl

/-- Witness for the amended claim C2 at concrete inputs. -/
theorem C2_witness :
    (runSlot (natCfg .LOADED_ON_MOUNT) (some true) none
        [Event.obsChange false]).importerCalls = 1
      ∧ (runSlot (natCfg .LOADED_ON_MOUNT) (some true) none []).importerCalls = 0 :=
  C2_theorem Nat (natCfg .LOADED_ON_MOUNT) none false rfl

/-- Claim C3: evaluation of the code at the failing input. The source
defaults an omitted loadState to LazyLoadState.DEFAULT unconditionally, so
with loadOnMount true and loadState omitted the initial not-in-view
callback loads nothing, while the strategy the claim says should be derived
(LOADED_ON_MOUNT) would have loaded exactly once at that callback. -/
theorem C3_code_evaluation :
    (runSlot (natCfg .DEFAULT) (some true) none [Event.obsChange false]).importerCalls = 0
      ∧ (runSlot (natCfg .LOADED_ON_MOUNT) (some true) none
          [Event.obsChange false]).importerCalls = 1 :=
  ⟨rfl, rfl⟩

/-- Claim C4 counterexample: a LAZY_ON_CONDITION slot whose element enters
view while the condition is still unset and whose condition then flips to
true performs zero retrievals and stays Empty: the condition change alone
runs no handler, and the triggerOnce observer delivers no further callback
after the enter-view one. -/
theorem C4_counterexample :
    obsValid [Event.obsChange true, Event.setCondition true] = true
      ∧ (runSlot (natCfg .LAZY_ON_CONDITION) none none
          [Event.obsChange true, Event.setCondition true]).importerCalls = 0
      ∧ (runSlot (natCfg .LAZY_ON_CONDITION) none none
          [Event.obsChange true, Event.setCondition true]).comp = none :=
  ⟨rfl, rfl, rfl⟩

/-- Claim C4 (amended): for a LAZY_ON_CONDITION slot the importer is
invoked exactly at the observer callbacks delivered while loadOnCondition
is currently truthy: never before the condition becomes true, never
because of the inView value alone, and a condition change by itself
triggers nothing — retrieval additionally requires a later observer
callback. -/
theorem C4_theorem :
    ∀ (α : Type) (cfg : SlotConfig α) (m c : Option Bool) (t : List Event),
      cfg.loadState = .LAZY_ON_CONDITION →
      (runSlot cfg m c t).importerCalls = condFireCount c t := by
  intro α cfg m c t h
  unfold runSlot
  rw [run_cond_importerCalls cfg h t (initSlot m c)]
  show 0 + condFireCount c t = condFireCount c t
  omega

/-- Witness for the amended claim C4 at concrete inputs. -/
theorem C4_witness :
    (runSlot (natCfg .LAZY_ON_CONDITION) none none
        [Event.obsChange false, Event.setCondition true, Event.obsChange true]).importerCalls
      = condFireCount none
          [Event.obsChange false, Event.setCondition true, Event.obsChange true] :=
  C4_theorem Nat (natCfg .LAZY_ON_CONDITION) none none
    [Event.obsChange false, Event.setCondition true, Event.obsChange true] rfl

/-- Claim C5: createLoadMap is a pure total function of its three optional
boolean inputs, mapping LOADED_ON_MOUNT to loadOnMount, DEFAULT to
loadByDefault and LAZY_ON_CONDITION to loadOnCondition, with all-false
inputs (explicit false or absent) yielding the all-false map. -/
theorem C5_theorem :
    ∀ (m d c : Bool),
      createLoadMap (some m) (some d) (some c) .LOADED_ON_MOUNT = m
        ∧ createLoadMap (some m) (some d) (some c) .DEFAULT = d
        ∧ createLoadMap (some m) (some d) (some c) .LAZY_ON_CONDITION = c
        ∧ (∀ s, createLoadMap (some false) (some false) (some false) s = false)
        ∧ (∀ s, createLoadMap none none none s = false) := by
  intro m d c
  refine ⟨rfl, rfl, rfl, ?_, ?_⟩ <;> intro s <;> cases s <;> rfl

/-- Claim C6: when an import resolves while a call is in flight, a module
containing the key default together with exportName default stores exactly
that entry in Comp; when exportName is absent from the module, Comp stays
null, the placeholder keeps rendering and no component is rendered. -/
theorem C6_theorem :
    (∀ (α : Type) (cfg : SlotConfig α) (st : SlotState α) (a : α),
        cfg.exportName = "default" → List.lookup "default" cfg.mod = some a →
        0 < st.pending →
        (stepSlot cfg st Event.resolveImport).comp = some a)
      ∧ (∀ (α π : Type) (cfg : SlotConfig α) (st : SlotState α) (ph : π),
          List.lookup cfg.exportName cfg.mod = none → 0 < st.pending →
          (stepSlot cfg st Event.resolveImport).comp = none
            ∧ renderOutput (stepSlot cfg st Event.resolveImport) (some ph)
              = (some ph, none)) := by
  constructor
  · intro α cfg st a hk hl hp
    rw [stepSlot_resolve_comp, if_pos hp, hk, hl]
  · intro α π cfg st ph hl hp
    have hc : (stepSlot cfg st Event.resolveImport).comp = none := by
      rw [stepSlot_resolve_comp, if_pos hp, hl]
    exact ⟨hc, by simp [renderOutput, hc]⟩

/-- Witness for claim C6 at concrete inputs. -/
theorem C6_witness :
    (stepSlot (natCfg .DEFAULT) (⟨none, none, none, 1, 1, 0⟩ : SlotState Nat)
        Event.resolveImport).comp = some 0
      ∧ ((stepSlot (⟨.DEFAULT, "missing", [("default", 0)], false⟩ : SlotConfig Nat)
          (⟨none, none, none, 1, 1, 0⟩ : SlotState Nat) Event.resolveImport).comp = none
        ∧ renderOutput
            (stepSlot (⟨.DEFAULT, "missing", [("default", 0)], false⟩ : SlotConfig Nat)
              (⟨none, none, none, 1, 1, 0⟩ : SlotState Nat) Event.resolveImport)
            (some 7)
          = (some 7, none)) :=
  ⟨C6_theorem.1 Nat (natCfg .DEFAULT) ⟨none, none, none, 1, 1, 0⟩ 0
      rfl (by decide) (by decide),
   C6_theorem.2 Nat Nat (⟨.DEFAULT, "missing", [("default", 0)], false⟩ : SlotConfig Nat)
      ⟨none, none, none, 1, 1, 0⟩ 7 (by decide) (by decide)⟩

/-- Claim C7: when an onInView callback is supplied, it is invoked exactly
as often as enter-view observer callbacks arrive, for every configured
strategy and independently of whether that evaluation triggered retrieval;
under the one-shot triggerOnce contract this is at most once, hence
exactly once upon the entered-view signal. -/
theorem C7_theorem :
    ∀ (α : Type) (cfg : SlotConfig α) (m c : Option Bool) (t : List Event),
      cfg.hasOnInView = true →
      (runSlot cfg m c t).onInViewCalls = countEnter t
        ∧ (obsValid t = true → (runSlot cfg m c t).onInViewCalls ≤ 1) := by
  intro α cfg m c t h
  have h1 : (runSlot cfg m c t).onInViewCalls = countEnter t := by
    unfold runSlot
    rw [run_onInViewCalls cfg h t (initSlot m c)]
    show 0 + countEnter t = countEnter t
    omega
  refine ⟨h1, fun hv => ?_⟩
  rw [h1]
  exact countEnter_le_one_of_obsValid t hv

/-- Witness for claim C7 at concrete inputs: a condition-gated slot that
never loads still notifies exactly once. -/
theorem C7_witness :
    (runSlot (natCfgIn .LAZY_ON_CONDITION) none none
        [Event.obsChange false, Event.obsChange true]).onInViewCalls
      = countEnter [Event.obsChange false, Event.obsChange true]
      ∧ (runSlot (natCfgIn .LAZY_ON_CONDITION) none none
          [Event.obsChange false, Event.obsChange true]).onInViewCalls ≤ 1 :=
  ⟨(C7_theorem Nat (natCfgIn .LAZY_ON_CONDITION) none none
      [Event.obsChange false, Event.obsChange true] rfl).1,
   (C7_theorem Nat (natCfgIn .LAZY_ON_CONDITION) none none
      [Event.obsChange false, Event.obsChange true] rfl).2 (by decide)⟩

/-- Claim C8 counterexample: a LOADED_ON_MOUNT slot that loads and resolves
after the initial not-in-view callback is Loaded with one importer call;
the later enter-view callback of the same triggerOnce-valid trace invokes
the importer a second time even though the slot is already Loaded, so the
claimed absence of further retrieval calls after Loaded fails. -/
theorem C8_counterexample :
    obsValid [Event.obsChange false, Event.resolveImport, Event.obsChange true] = true
      ∧ (runSlot (natCfg .LOADED_ON_MOUNT) (some true) none
          [Event.obsChange false, Event.resolveImport]).comp = some 0
      ∧ (runSlot (natCfg .LOADED_ON_MOUNT) (some true) none
          [Event.obsChange false, Event.resolveImport]).importerCalls = 1
      ∧ (runSlot (natCfg .LOADED_ON_MOUNT) (some true) none
          [Event.obsChange false, Event.resolveImport, Event.obsChange true]).importerCalls = 2 :=
  ⟨rfl, rfl, rfl, rfl⟩

/-- Claim C8 (amended): once Loaded the slot never regresses to Empty under
any further events, and for the Default strategy no further importer call
occurs after Loaded; for the other strategies a later observer callback can
invoke the importer again (see the counterexample). -/
theorem C8_theorem :
    ∀ (α : Type) (cfg : SlotConfig α) (m c : Option Bool) (t u : List Event),
      (runSlot cfg m c t).comp.isSome = true →
      (runSlot cfg m c (t ++ u)).comp.isSome = true
        ∧ (cfg.loadState = .DEFAULT →
            (runSlot cfg m c (t ++ u)).importerCalls
              = (runSlot cfg m c t).importerCalls) := by
  intro α cfg m c t u hL
  have hInv : CompInv cfg (runSlot cfg m c t) := by
    unfold runSlot
    exact compInv_run cfg t (initSlot m c) (Or.inl rfl)
  have hrest := run_loaded cfg u (runSlot cfg m c t) hInv hL
  unfold runSlot at hrest ⊢
  rw [runFrom_append]
  exact hrest

/-- Witness for the amended claim C8 at concrete inputs. -/
theorem C8_witness :
    (runSlot (natCfg .DEFAULT) none none
        ([Event.obsChange true, Event.resolveImport]
          ++ [Event.setCondition true, Event.resolveImport])).comp.isSome = true
      ∧ (runSlot (natCfg .DEFAULT) none none
          ([Event.obsChange true, Event.resolveImport]
            ++ [Event.setCondition true, Event.resolveImport])).importerCalls
        = (runSlot (natCfg .DEFAULT) none none
            [Event.obsChange true, Event.resolveImport]).importerCalls := by
  have h := C8_theorem Nat (natCfg .DEFAULT) none none
    [Event.obsChange true, Event.resolveImport]
    [Event.setCondition true, Event.resolveImport] (by decide)
  exact ⟨h.1, h.2 rfl⟩

/-- Claim C9: a rejected retrieval is not intercepted by the core: the
rejection step changes no observable slot state (Comp, importer call count
and notification count are untouched, so no retry is initiated), and a run
in which every import completion is a rejection leaves the slot Empty. -/
theorem C9_theorem :
    (∀ (α : Type) (cfg : SlotConfig α) (st : SlotState α),
        (stepSlot cfg st Event.rejectImport).comp = st.comp
          ∧ (stepSlot cfg st Event.rejectImport).importerCalls = st.importerCalls
          ∧ (stepSlot cfg st Event.rejectImport).onInViewCalls = st.onInViewCalls)
      ∧ (∀ (α : Type) (cfg : SlotConfig α) (m c : Option Bool) (t : List Event),
          t.all (fun x => !(isResolve x)) = true →
          (runSlot cfg m c t).comp = none) := by
  constructor
  · intro α cfg st
    exact ⟨stepSlot_reject_comp cfg st, stepSlot_reject_importerCalls cfg st,
      stepSlot_nonObs_onInViewCalls cfg st Event.rejectImport rfl⟩
  · intro α cfg m c t h
    unfold runSlot
    rw [run_noResolve_comp cfg t (initSlot m c) h]
    rfl

/-- Witness for claim C9 at concrete inputs. -/
theorem C9_witness :
    ((stepSlot (natCfg .DEFAULT) (⟨none, none, none, 1, 1, 0⟩ : SlotState Nat)
          Event.rejectImport).comp
        = (⟨none, none, none, 1, 1, 0⟩ : SlotState Nat).comp
      ∧ (stepSlot (natCfg .DEFAULT) (⟨none, none, none, 1, 1, 0⟩ : SlotState Nat)
          Event.rejectImport).importerCalls
        = (⟨none, none, none, 1, 1, 0⟩ : SlotState Nat).importerCalls
      ∧ (stepSlot (natCfg .DEFAULT) (⟨none, none, none, 1, 1, 0⟩ : SlotState Nat)
          Event.rejectImport).onInViewCalls
        = (⟨none, none, none, 1, 1, 0⟩ : SlotState Nat).onInViewCalls)
      ∧ (runSlot (natCfg .DEFAULT) none none
          [Event.obsChange true, Event.rejectImport]).comp = none :=
  ⟨C9_theorem.1 Nat (natCfg .DEFAULT) ⟨none, none, none, 1, 1, 0⟩,
   C9_theorem.2 Nat (natCfg .DEFAULT) none none
      [Event.obsChange true, Event.rejectImport] (by decide)⟩

/-- Claim C10: the importer is only ever invoked from inside the observer
onChange callback: a run without observer callbacks performs zero importer
calls, non-observer events never change the importer call count, and at an
observer callback the decision adds one call exactly when the load map
built from the current flag props, the current Comp and the delivered
inView value is true at the configured loadState. -/
theorem C10_theorem :
    (∀ (α : Type) (cfg : SlotConfig α) (m c : Option Bool) (t : List Event),
        t.all (fun x => !(isObs x)) = true →
        (runSlot cfg m c t).importerCalls = 0)
      ∧ (∀ (α : Type) (cfg : SlotConfig α) (st : SlotState α) (e : Event),
          isObs e = false →
          (stepSlot cfg st e).importerCalls = st.importerCalls)
      ∧ (∀ (α : Type) (cfg : SlotConfig α) (st : SlotState α) (b : Bool),
          (stepSlot cfg st (Event.obsChange b)).importerCalls
            = st.importerCalls
              + (if createLoadMap st.loadOnMount (some (b && st.comp.isNone))
                    st.loadOnCondition cfg.loadState
                 then 1 else 0)) := by
  refine ⟨?_, ?_, ?_⟩
  · intro α cfg m c t h
    unfold runSlot
    rw [run_noObs_importerCalls cfg t (initSlot m c) h]
    rfl
  · intro α cfg st e h
    exact stepSlot_nonObs_importerCalls cfg st e h
  · intro α cfg st b
    exact stepSlot_obsChange_importerCalls cfg st b

/-- Witness for claim C10 at concrete inputs: even with loadOnMount and
loadOnCondition both true, a run without observer callbacks never loads. -/
theorem C10_witness :
    (runSlot (natCfg .LOADED_ON_MOUNT) (some true) (some true)
        [Event.setCondition true, Event.setLoadOnMount true, Event.rejectImport]).importerCalls = 0
      ∧ (stepSlot (natCfg .LOADED_ON_MOUNT)
          (⟨none, some true, none, 0, 0, 0⟩ : SlotState Nat)
          (Event.setCondition true)).importerCalls
        = (⟨none, some true, none, 0, 0, 0⟩ : SlotState Nat).importerCalls
      ∧ (stepSlot (natCfg .LOADED_ON_MOUNT)
          (⟨none, some true, none, 0, 0, 0⟩ : SlotState Nat)
          (Event.obsChange true)).importerCalls
        = (⟨none, some true, none, 0, 0, 0⟩ : SlotState Nat).importerCalls
          + (if createLoadMap (⟨none, some true, none, 0, 0, 0⟩ : SlotState Nat).loadOnMount
                (some (true && (⟨none, some true, none, 0, 0, 0⟩ : SlotState Nat).comp.isNone))
                (⟨none, some true, none, 0, 0, 0⟩ : SlotState Nat).loadOnCondition
                (natCfg .LOADED_ON_MOUNT).loadState
             then 1 else 0) :=
  ⟨C10_theorem.1 Nat (natCfg .LOADED_ON_MOUNT) (some true) (some true)
      [Event.setCondition true, Event.setLoadOnMount true, Event.rejectImport] (by decide),
   C10_theorem.2.1 Nat (natCfg .LOADED_ON_MOUNT)
      ⟨none, some true, none, 0, 0, 0⟩ (Event.setCondition true) rfl,
   C10_theorem.2.2 Nat (natCfg .LOADED_ON_MOUNT)
      ⟨none, some true, none, 0, 0, 0⟩ true⟩

end ReactViewImport
